import Mathlib

set_option autoImplicit false
set_option maxRecDepth 10000

namespace ScenicSeat

/-! Shallow embedding of the Scenic-Seat solar-geodesic decision engine.
The repository ships the frontend only; the backend engine modules are
modelled from the specification where marked, and frontend code such as
the bearing formula and the seat-colouring effect is embedded directly. -/

/-- Cabin side of a recommendation. -/
inductive Side where
  | LEFT
  | RIGHT
  | EITHER
deriving DecidableEq, Repr, Fintype

/-- Confidence band of a recommendation. -/
inductive Confidence where
  | HIGH
  | MEDIUM
  | LOW
deriving DecidableEq, Repr

/-- Stability level of a recommendation across the exploration window. -/
inductive Stability where
  | HIGH
  | MEDIUM
  | LOW
deriving DecidableEq, Repr

/-- Modelled from the spec: the backend Decision module is not among the
frontend sources. wrap maps any angle into the canonical open-closed range
(-180, 180] by adding or subtracting whole multiples of 360. -/
def wrap (theta : ℚ) : ℚ :=
  theta - 360 * (⌈(theta - 180) / 360⌉ : ℚ)

/-- Modelled from the spec: relative angle between flight bearing and sun
azimuth, wrapped to (-180, 180]. -/
def relative_angle (bearing_deg sun_azimuth_deg : ℚ) : ℚ :=
  wrap (sun_azimuth_deg - bearing_deg)

/-- Modelled from the spec: confidence band evaluated on the absolute
relative angle. HIGH on [45, 135], MEDIUM on [15, 45) and (135, 165],
LOW below 15 or above 165. -/
def confidenceBand (a : ℚ) : Confidence :=
  if a < 15 then .LOW
  else if a < 45 then .MEDIUM
  else if a ≤ 135 then .HIGH
  else if a ≤ 165 then .MEDIUM
  else .LOW

/-- Modelled from the spec: side by the sign of the relative angle, before
the EITHER override. Positive means the sun is clockwise of the flight
direction, hence on the right. -/
def baseSide (delta : ℚ) : Side :=
  if 0 < delta then .RIGHT
  else if delta < 0 then .LEFT
  else .EITHER

/-- Modelled from the spec: full Decision classification. An absolute
relative angle below 15 or above 150 overrides the side to EITHER and
forces LOW confidence; otherwise the side follows the sign and the
confidence follows the band. -/
def classify (delta : ℚ) : Side × Confidence :=
  if |delta| < 15 ∨ 150 < |delta| then (.EITHER, .LOW)
  else (baseSide delta, confidenceBand |delta|)

/-! Geodesy over the reals, embedded from the frontend sources. -/

noncomputable section RealGeodesy

open Real

/-- JS Math.atan2 y x in radians, modelled as the argument of the complex
number with real part x and imaginary part y; the result lies in
(-pi, pi] and atan2 0 0 = 0, as in JS. -/
def atan2 (y x : ℝ) : ℝ := Complex.arg ⟨x, y⟩

/-- Truncation toward zero, the rounding used by the JS remainder. -/
def jsTrunc (x : ℝ) : ℤ := if 0 ≤ x then ⌊x⌋ else ⌈x⌉

/-- The JS remainder a % b: the dividend minus the divisor times the
quotient truncated toward zero. -/
def jsMod (a b : ℝ) : ℝ := a - b * (jsTrunc (a / b) : ℝ)

/-- Initial great-circle bearing, embedded from calculateBearing in the
frontend map overlay: y = sin dLon * cos lat2,
x = cos lat1 * sin lat2 - sin lat1 * cos lat2 * cos dLon, then the atan2
result in degrees is normalised by adding 360 and taking the remainder
modulo 360. -/
def calculateBearing (lat1 lon1 lat2 lon2 : ℝ) : ℝ :=
  let dLon := (lon2 - lon1) * π / 180
  let lat1Rad := lat1 * π / 180
  let lat2Rad := lat2 * π / 180
  let y := Real.sin dLon * Real.cos lat2Rad
  let x := Real.cos lat1Rad * Real.sin lat2Rad -
    Real.sin lat1Rad * Real.cos lat2Rad * Real.cos dLon
  let bearing := atan2 y x * 180 / π
  jsMod (bearing + 360) 360

/-- Two coordinate pairs are antipodal: mirrored latitude and longitudes
a half turn apart, or the two poles. -/
def AntipodalPts (lat1 lon1 lat2 lon2 : ℝ) : Prop :=
  (lat2 = -lat1 ∧ (lon2 - lon1 = 180 ∨ lon2 - lon1 = -180)) ∨
  (lat1 = 90 ∧ lat2 = -90) ∨ (lat1 = -90 ∧ lat2 = 90)

/-- Spherical interpolation at fraction f between two points, embedded from
generateGreatCircleRoute in the repository geodesic module: the chord
parameter a is clamped into [-1, 1] before acos, the point is interpolated
on the unit sphere and converted back to latitude and longitude via atan2.
Returns (latitude, longitude) in degrees. -/
def slerpPoint (lat1 lon1 lat2 lon2 f : ℝ) : ℝ × ℝ :=
  let phi1 := lat1 * π / 180
  let phi2 := lat2 * π / 180
  let dLam := (lon2 - lon1) * π / 180
  let a := Real.sin phi1 * Real.sin phi2 +
    Real.cos phi1 * Real.cos phi2 * Real.cos dLam
  let c := Real.arccos (min 1 (max (-1) a))
  let A := Real.sin ((1 - f) * c) / Real.sin c
  let B := Real.sin (f * c) / Real.sin c
  let x := A * Real.cos phi1 * Real.cos (lon1 * π / 180) +
    B * Real.cos phi2 * Real.cos (lon2 * π / 180)
  let y := A * Real.cos phi1 * Real.sin (lon1 * π / 180) +
    B * Real.cos phi2 * Real.sin (lon2 * π / 180)
  let z := A * Real.sin phi1 + B * Real.sin phi2
  (atan2 z (Real.sqrt (x * x + y * y)) * 180 / π, atan2 y x * 180 / π)

/-- Geodesy degeneracy error raised on an antipodal route. -/
inductive GeoError where
  | antipodalRoute
deriving DecidableEq, Repr

open Classical in
/-- Modelled from the spec: great_circle_point of the backend Geodesy
module is not among the frontend sources. It interpolates along the
shortest arc and fails with a GeoError when the endpoints are antipodal. -/
def great_circle_point (lat1 lon1 lat2 lon2 f : ℝ) :
    Except GeoError (ℝ × ℝ) :=
  if AntipodalPts lat1 lon1 lat2 lon2 then .error .antipodalRoute
  else .ok (slerpPoint lat1 lon1 lat2 lon2 f)

/-- Modelled from the spec: the route midpoint reported in the
Recommendation is the great-circle point at fraction one half. -/
def routeMidpoint (lat1 lon1 lat2 lon2 : ℝ) : Except GeoError (ℝ × ℝ) :=
  great_circle_point lat1 lon1 lat2 lon2 (1 / 2)

/-- Arithmetic mean of the coordinates, as constructed for the midpoint
waypoint in InteractiveMapOverlay and for the MapView midpoint prop in
AirplaneSeatLayout. -/
def arithmeticMidpoint (lat1 lon1 lat2 lon2 : ℝ) : ℝ × ℝ :=
  ((lat1 + lat2) / 2, (lon1 + lon2) / 2)

end RealGeodesy

/-! Phase-time module, modelled from the spec. -/

/-- The four phase instants of a civil day, as UTC time coordinates on the
real line. -/
structure PhaseTimes where
  civil_dawn : ℝ
  sunrise : ℝ
  sunset : ℝ
  civil_dusk : ℝ

/-- Modelled from the spec: a normal day/night cycle at a point and local
date. The solar altitude strictly increases from the start of the civil
day to solar noon, strictly decreases from noon to the end of the day, and
the sun is above the horizon at noon. -/
def NormalDayCycle (alt : ℝ → ℝ) (t0 noon t1 : ℝ) : Prop :=
  t0 ≤ noon ∧ noon ≤ t1 ∧
  StrictMonoOn alt (Set.Icc t0 noon) ∧
  StrictAntiOn alt (Set.Icc noon t1) ∧
  0 < alt noon

/-- Modelled from the spec: the backend phase_times routine is not among
the frontend sources. Its output is characterised by the crossings it
finds: civil dawn and sunrise are the morning instants where the altitude
reaches -6 and 0, sunset and civil dusk the evening instants where it
falls back to 0 and -6. -/
def IsPhaseTimes (alt : ℝ → ℝ) (t0 noon t1 : ℝ) (pt : PhaseTimes) : Prop :=
  pt.civil_dawn ∈ Set.Icc t0 noon ∧ alt pt.civil_dawn = -6 ∧
  pt.sunrise ∈ Set.Icc t0 noon ∧ alt pt.sunrise = 0 ∧
  pt.sunset ∈ Set.Icc noon t1 ∧ alt pt.sunset = 0 ∧
  pt.civil_dusk ∈ Set.Icc noon t1 ∧ alt pt.civil_dusk = -6

/-- Sample altitude profile with a normal day/night cycle: a tent profile
peaking at noon zero, crossing -6 at ±7 and 0 at ±1. -/
def dayAlt (t : ℝ) : ℝ := 1 - |t|

/-! Stability module, modelled from the spec and the TimeScrubber. -/

/-- One Decision sample inside the exploration window. -/
structure DecisionSample where
  side : Side
  confidence : Confidence
deriving DecidableEq, Repr

/-- Offsets in minutes across the ±3 hour window around departure, every
15 minutes, matching the TimeScrubber slider range and step. -/
def windowOffsets : List ℤ :=
  (List.range 25).map (fun i => -180 + 15 * (i : ℤ))

/-- Modelled from the spec: the backend Stability module is not among the
frontend sources. HIGH when the recommended side never changes across the
sampled window, MEDIUM when it changes but the confidence stays non-LOW
throughout, LOW otherwise. -/
def stabilityOf (f : ℤ → DecisionSample) : Stability :=
  if ∀ t ∈ windowOffsets, (f t).side = (f 0).side then .HIGH
  else if ∀ t ∈ windowOffsets, (f t).confidence ≠ Confidence.LOW then .MEDIUM
  else .LOW

/-! Orchestrator and error taxonomy, modelled from the spec. -/

/-- The closed error taxonomy of the engine contract. -/
inductive ErrorType where
  | GEO_ERROR
  | POLAR_DAY
  | UNDEFINED_SUN
  | VALIDATION
deriving DecidableEq, Repr

/-- Typed error payload of the engine contract. -/
structure ErrorPayload where
  error_type : ErrorType
  message : String
deriving DecidableEq, Repr

/-- Viewing interest of a request. -/
inductive Interest where
  | sunrise
  | sunset
deriving DecidableEq, Repr, Fintype

/-- A geographic point with an IANA timezone identifier. -/
structure GeoPoint where
  lat : ℚ
  lon : ℚ
  tz : String
deriving DecidableEq, Repr

/-- A flight request: origin, destination, naive local departure string,
viewing interest. -/
structure FlightRequest where
  origin : GeoPoint
  destination : GeoPoint
  local_datetime : String
  interest : Interest
deriving DecidableEq, Repr

/-- The Recommendation result object of the engine contract. -/
structure Recommendation where
  side : Side
  confidence : Confidence
  bearing_deg : ℚ
  sun_azimuth_deg : ℚ
  relative_angle_deg : ℚ
  golden_hour : Bool
  stability : Stability
  notes : String
deriving DecidableEq, Repr

/-- Coordinate-range validation of a point. -/
def validPoint (p : GeoPoint) : Prop :=
  -90 ≤ p.lat ∧ p.lat ≤ 90 ∧ -180 ≤ p.lon ∧ p.lon ≤ 180

instance (p : GeoPoint) : Decidable (validPoint p) := by
  unfold validPoint
  infer_instance

/-- Two points coincide geographically. -/
def samePoint (p q : GeoPoint) : Prop :=
  p.lat = q.lat ∧ p.lon = q.lon

instance (p q : GeoPoint) : Decidable (samePoint p q) := by
  unfold samePoint
  infer_instance

/-- Modelled from the spec: the backend Orchestrator is not among the
frontend sources. It validates coordinates, rejects a geodesically
degenerate route with a GEO_ERROR, and otherwise hands the request to the
computation pipeline, abstracted here as the engine argument. -/
def recommend (engine : FlightRequest → Except ErrorPayload Recommendation)
    (req : FlightRequest) : Except ErrorPayload Recommendation :=
  if ¬(validPoint req.origin ∧ validPoint req.destination) then
    .error ⟨.VALIDATION, "invalid coordinates"⟩
  else if samePoint req.origin req.destination then
    .error ⟨.GEO_ERROR, "origin equals destination"⟩
  else engine req

/-- Engine stub used by a witness; never reached on a degenerate route. -/
def trivialEngine : FlightRequest → Except ErrorPayload Recommendation :=
  fun _ => .error ⟨.VALIDATION, "unreachable"⟩

/-- Degenerate request used by a witness: origin and destination coincide. -/
def degenerateReq : FlightRequest :=
  ⟨⟨10, 20, "Asia/Kolkata"⟩, ⟨10, 20, "Asia/Kolkata"⟩,
    "2025-09-01T06:00:00", .sunrise⟩

/-! Seat layout colouring, embedded from AirplaneSeatLayout. -/

/-- One seat of the generated layout. -/
structure SeatPosition where
  row : ℕ
  seat : String
  color : String
  isWindow : Bool
  isAisle : Bool
  seatType : String
deriving DecidableEq, Repr

/-- One row of the generated seat layout, embedded from the layout effect
in AirplaneSeatLayout: window A and H seats, aisle B, C, F, G seats and
middle D, E seats, all initially white. -/
def seatRow (row : ℕ) : List SeatPosition :=
  [⟨row, toString row ++ "A", "#FFFFFF", true, false, "port-window"⟩,
   ⟨row, toString row ++ "B", "#FFFFFF", false, true, "port-aisle"⟩,
   ⟨row, toString row ++ "C", "#FFFFFF", false, true, "center-aisle"⟩,
   ⟨row, toString row ++ "D", "#FFFFFF", false, false, "center-middle"⟩,
   ⟨row, toString row ++ "E", "#FFFFFF", false, false, "center-middle"⟩,
   ⟨row, toString row ++ "F", "#FFFFFF", false, true, "center-aisle"⟩,
   ⟨row, toString row ++ "G", "#FFFFFF", false, true, "starboard-aisle"⟩,
   ⟨row, toString row ++ "H", "#FFFFFF", true, false, "starboard-window"⟩]

/-- The full 20-row layout generated by AirplaneSeatLayout. -/
def allSeats : List SeatPosition :=
  (List.range 20).flatMap (fun i => seatRow (i + 1))

/-- Last-character test, equivalent to the JS endsWith call with a
single-character suffix used by the colouring effect. -/
def endsWithChar (s : String) (c : Char) : Bool :=
  match s.data.getLast? with
  | some d => d = c
  | none => false

/-- Seat colouring effect embedded from AirplaneSeatLayout: the optimal
side defaults to EITHER without a recommendation; LEFT colours the A
seats and RIGHT the H seats, gold for a sunrise interest and orange
otherwise; every other seat is painted white. -/
def colorSeats (recSide : Option Side) (interestType : Option Interest)
    (seats : List SeatPosition) : List SeatPosition :=
  let optimalSide := recSide.getD Side.EITHER
  seats.map fun seat =>
    if optimalSide = Side.LEFT ∧ endsWithChar seat.seat 'A' = true then
      { seat with
        color := if interestType = some Interest.sunrise
          then "#FFD700" else "#FFA500" }
    else if optimalSide = Side.RIGHT ∧ endsWithChar seat.seat 'H' = true then
      { seat with
        color := if interestType = some Interest.sunrise
          then "#FFD700" else "#FFA500" }
    else
      { seat with color := "#FFFFFF" }

/-! Boundary lemmas for the confidence band. -/

theorem confidenceBand_of_lt_fifteen {a : ℚ} (h : a < 15) :
    confidenceBand a = .LOW := by
  rw [confidenceBand, if_pos h]

theorem confidenceBand_of_medium_lo {a : ℚ} (h1 : 15 ≤ a) (h2 : a < 45) :
    confidenceBand a = .MEDIUM := by
  rw [confidenceBand, if_neg (not_lt.mpr h1), if_pos h2]

theorem confidenceBand_of_high {a : ℚ} (h1 : 45 ≤ a) (h2 : a ≤ 135) :
    confidenceBand a = .HIGH := by
  rw [confidenceBand, if_neg (not_lt.mpr (by linarith)), if_neg (not_lt.mpr h1),
    if_pos h2]

theorem confidenceBand_of_medium_hi {a : ℚ} (h1 : 135 < a) (h2 : a ≤ 165) :
    confidenceBand a = .MEDIUM := by
  rw [confidenceBand, if_neg (not_lt.mpr (by linarith)),
    if_neg (not_lt.mpr (by linarith)), if_neg (not_le.mpr h1), if_pos h2]

theorem confidenceBand_of_gt {a : ℚ} (h : 165 < a) :
    confidenceBand a = .LOW := by
  rw [confidenceBand, if_neg (not_lt.mpr (by linarith)),
    if_neg (not_lt.mpr (by linarith)), if_neg (not_le.mpr (by linarith)),
    if_neg (not_le.mpr h)]

theorem confidenceBand_eq_HIGH_iff (a : ℚ) :
    confidenceBand a = .HIGH ↔ 45 ≤ a ∧ a ≤ 135 := by
  constructor
  · intro h
    rcases lt_or_le a 15 with h1 | h1
    · rw [confidenceBand_of_lt_fifteen h1] at h; exact Confidence.noConfusion h
    rcases lt_or_le a 45 with h2 | h2
    · rw [confidenceBand_of_medium_lo h1 h2] at h; exact Confidence.noConfusion h
    rcases le_or_lt a 135 with h3 | h3
    · exact ⟨h2, h3⟩
    rcases le_or_lt a 165 with h4 | h4
    · rw [confidenceBand_of_medium_hi h3 h4] at h; exact Confidence.noConfusion h
    · rw [confidenceBand_of_gt h4] at h; exact Confidence.noConfusion h
  · intro h
    exact confidenceBand_of_high h.1 h.2

theorem confidenceBand_eq_MEDIUM_iff (a : ℚ) :
    confidenceBand a = .MEDIUM ↔ (15 ≤ a ∧ a < 45) ∨ (135 < a ∧ a ≤ 165) := by
  constructor
  · intro h
    rcases lt_or_le a 15 with h1 | h1
    · rw [confidenceBand_of_lt_fifteen h1] at h; exact Confidence.noConfusion h
    rcases lt_or_le a 45 with h2 | h2
    · exact Or.inl ⟨h1, h2⟩
    rcases le_or_lt a 135 with h3 | h3
    · rw [confidenceBand_of_high h2 h3] at h; exact Confidence.noConfusion h
    rcases le_or_lt a 165 with h4 | h4
    · exact Or.inr ⟨h3, h4⟩
    · rw [confidenceBand_of_gt h4] at h; exact Confidence.noConfusion h
  · rintro (⟨h1, h2⟩ | ⟨h1, h2⟩)
    · exact confidenceBand_of_medium_lo h1 h2
    · exact confidenceBand_of_medium_hi h1 h2

theorem confidenceBand_eq_LOW_iff (a : ℚ) :
    confidenceBand a = .LOW ↔ a < 15 ∨ 165 < a := by
  constructor
  · intro h
    rcases lt_or_le a 15 with h1 | h1
    · exact Or.inl h1
    rcases lt_or_le a 45 with h2 | h2
    · rw [confidenceBand_of_medium_lo h1 h2] at h; exact Confidence.noConfusion h
    rcases le_or_lt a 135 with h3 | h3
    · rw [confidenceBand_of_high h2 h3] at h; exact Confidence.noConfusion h
    rcases le_or_lt a 165 with h4 | h4
    · rw [confidenceBand_of_medium_hi h3 h4] at h; exact Confidence.noConfusion h
    · exact Or.inr h4
  · rintro (h | h)
    · exact confidenceBand_of_lt_fifteen h
    · exact confidenceBand_of_gt h

/-! Range and idempotence of the wrap function. -/

theorem wrap_mem (theta : ℚ) : -180 < wrap theta ∧ wrap theta ≤ 180 := by
  unfold wrap
  have h1 : ((theta - 180) / 360 : ℚ) ≤ (⌈(theta - 180) / 360⌉ : ℚ) :=
    Int.le_ceil _
  have h2 : ((⌈(theta - 180) / 360⌉ : ℤ) : ℚ) < (theta - 180) / 360 + 1 :=
    Int.ceil_lt_add_one _
  have hq : ((theta - 180) / 360 : ℚ) * 360 = theta - 180 := by
    field_simp
  constructor <;> nlinarith [h1, h2, hq]

theorem wrap_eq_self {theta : ℚ} (h1 : -180 < theta) (h2 : theta ≤ 180) :
    wrap theta = theta := by
  unfold wrap
  have hc : ⌈(theta - 180) / 360⌉ = 0 := by
    rw [Int.ceil_eq_zero_iff, Set.mem_Ioc]
    constructor
    · rw [lt_div_iff (by norm_num : (0:ℚ) < 360)]
      linarith
    · rw [div_le_iff (by norm_num : (0:ℚ) < 360)]
      linarith
  rw [hc]
  push_cast
  ring

theorem wrap_idem (theta : ℚ) : wrap (wrap theta) = wrap theta :=
  wrap_eq_self (wrap_mem theta).1 (wrap_mem theta).2

/-- Claim C1: for every pair (bearing, sun azimuth), with delta the relative
angle wrapped to (-180, 180], the pre-override side is RIGHT whenever
delta is positive and LEFT whenever delta is negative. -/
theorem C1_sign_to_side (b s : ℚ) :
    (0 < relative_angle b s → baseSide (relative_angle b s) = Side.RIGHT) ∧
    (relative_angle b s < 0 → baseSide (relative_angle b s) = Side.LEFT) := by
  constructor
  · intro h
    rw [baseSide, if_pos h]
  · intro h
    rw [baseSide, if_neg (by linarith), if_pos h]

/-- Witness for C1 at bearing 0 with sun azimuth 90, and bearing 90 with
sun azimuth 0. -/
theorem C1_sign_to_side_witness :
    (0 < relative_angle 0 90 ∧ baseSide (relative_angle 0 90) = Side.RIGHT) ∧
    (relative_angle 90 0 < 0 ∧ baseSide (relative_angle 90 0) = Side.LEFT) := by
  have h1 : relative_angle 0 90 = 90 := by
    rw [relative_angle, sub_zero, wrap_eq_self (by norm_num) (by norm_num)]
  have h2 : relative_angle 90 0 = -90 := by
    rw [relative_angle, zero_sub, wrap_eq_self (by norm_num) (by norm_num)]
  refine ⟨⟨by rw [h1]; norm_num, (C1_sign_to_side 0 90).1 (by rw [h1]; norm_num)⟩,
    ⟨by rw [h2]; norm_num, (C1_sign_to_side 90 0).2 (by rw [h2]; norm_num)⟩⟩

/-- Claim C2: for every relative angle delta in (-180, 180], an absolute
value below 15 or above 150 yields side EITHER with confidence LOW, and
otherwise the side follows the sign of delta. -/
theorem C2_either_override (delta : ℚ) (h1 : -180 < delta) (h2 : delta ≤ 180) :
    ((|delta| < 15 ∨ 150 < |delta|) →
      classify delta = (Side.EITHER, Confidence.LOW)) ∧
    (¬(|delta| < 15 ∨ 150 < |delta|) →
      classify delta =
        (if 0 < delta then Side.RIGHT else Side.LEFT, confidenceBand |delta|)) := by
  constructor
  · intro h
    rw [classify, if_pos h]
  · intro h
    push_neg at h
    obtain ⟨hlo, hhi⟩ := h
    have hne : delta ≠ 0 := by
      intro h0
      rw [h0, abs_zero] at hlo
      linarith
    rw [classify, if_neg (by push_neg; exact ⟨hlo, hhi⟩)]
    rcases lt_or_gt_of_ne hne with hneg | hpos
    · rw [baseSide, if_neg (by linarith), if_pos hneg, if_neg (by linarith)]
    · rw [baseSide, if_pos hpos, if_pos hpos]

/-- Witness for C2 at delta 5 (override region) and delta 90 (clear side). -/
theorem C2_either_override_witness :
    ((|(5:ℚ)| < 15 ∨ 150 < |(5:ℚ)|) ∧
      classify 5 = (Side.EITHER, Confidence.LOW)) ∧
    (¬(|(90:ℚ)| < 15 ∨ 150 < |(90:ℚ)|) ∧
      classify 90 =
        (if (0:ℚ) < 90 then Side.RIGHT else Side.LEFT, confidenceBand |(90:ℚ)|)) := by
  have ha : |(5:ℚ)| = 5 := abs_of_pos (by norm_num)
  have hb : |(90:ℚ)| = 90 := abs_of_pos (by norm_num)
  refine ⟨⟨by rw [ha]; norm_num,
      (C2_either_override 5 (by norm_num) (by norm_num)).1 (by rw [ha]; norm_num)⟩,
    ⟨by rw [hb]; norm_num,
      (C2_either_override 90 (by norm_num) (by norm_num)).2 (by rw [hb]; norm_num)⟩⟩

/-- Claim C3: for every relative angle delta in (-180, 180], the confidence
band on the absolute value is HIGH exactly on [45, 135], MEDIUM exactly on
[15, 45) and (135, 165], and LOW exactly below 15 or above 165; in
particular 15 gives MEDIUM and the LOW boundary sits at 165, not at the
EITHER cutoff 150. -/
theorem C3_confidence_bands (delta : ℚ) (h1 : -180 < delta) (h2 : delta ≤ 180) :
    (confidenceBand |delta| = Confidence.HIGH ↔ 45 ≤ |delta| ∧ |delta| ≤ 135) ∧
    (confidenceBand |delta| = Confidence.MEDIUM ↔
      (15 ≤ |delta| ∧ |delta| < 45) ∨ (135 < |delta| ∧ |delta| ≤ 165)) ∧
    (confidenceBand |delta| = Confidence.LOW ↔ |delta| < 15 ∨ 165 < |delta|) ∧
    confidenceBand 15 = Confidence.MEDIUM ∧
    confidenceBand 165 = Confidence.MEDIUM := by
  exact ⟨confidenceBand_eq_HIGH_iff _, confidenceBand_eq_MEDIUM_iff _,
    confidenceBand_eq_LOW_iff _,
    confidenceBand_of_medium_lo (by norm_num) (by norm_num),
    confidenceBand_of_medium_hi (by norm_num) (by norm_num)⟩

/-- Witness for C3 at delta 15: the band at 15 is MEDIUM, not LOW. -/
theorem C3_confidence_bands_witness :
    ((-180:ℚ) < 15 ∧ (15:ℚ) ≤ 180) ∧ confidenceBand 15 = Confidence.MEDIUM :=
  ⟨⟨by norm_num, by norm_num⟩,
    (C3_confidence_bands 15 (by norm_num) (by norm_num)).2.2.2.1⟩

/-- Claim C4: wrap is range-correct into (-180, 180] and idempotent, and the
relative angle is exactly the wrap of the azimuth difference. -/
theorem C4_wrap_idempotent (theta b s : ℚ) :
    (-180 < wrap theta ∧ wrap theta ≤ 180) ∧
    wrap (wrap theta) = wrap theta ∧
    relative_angle b s = wrap (s - b) :=
  ⟨wrap_mem theta, wrap_idem theta, rfl⟩

/-! Geodesy theorems. -/

open Real

theorem jsMod_mem {a b : ℝ} (hb : 0 < b) (ha : 0 ≤ a) :
    0 ≤ jsMod a b ∧ jsMod a b < b := by
  have hq : (0:ℝ) ≤ a / b := div_nonneg ha hb.le
  have ht : jsTrunc (a / b) = ⌊a / b⌋ := if_pos hq
  have hcancel : b * (a / b) = a := by field_simp
  have hfr : jsMod a b = b * Int.fract (a / b) := by
    rw [jsMod, ht, Int.fract, mul_sub, hcancel]
  constructor
  · rw [hfr]
    exact mul_nonneg hb.le (Int.fract_nonneg _)
  · rw [hfr]
    calc b * Int.fract (a / b) < b * 1 :=
          mul_lt_mul_of_pos_left (Int.fract_lt_one _) hb
    _ = b := mul_one b

theorem bearing_norm_range (y x : ℝ) :
    0 ≤ jsMod (atan2 y x * 180 / π + 360) 360 ∧
    jsMod (atan2 y x * 180 / π + 360) 360 < 360 := by
  have hpi : (0:ℝ) < π := Real.pi_pos
  have harg := Complex.arg_mem_Ioc ⟨x, y⟩
  rw [Set.mem_Ioc] at harg
  have hpos : (0:ℝ) < 180 / π := by positivity
  have hscale : -180 < atan2 y x * 180 / π := by
    calc (-180:ℝ) = -π * (180 / π) := by field_simp; ring
    _ < atan2 y x * (180 / π) := mul_lt_mul_of_pos_right harg.1 hpos
    _ = atan2 y x * 180 / π := by ring
  exact jsMod_mem (by norm_num) (by linarith)

/-- Claim C5: for every pair of non-identical, non-antipodal points, the
atan2-based initial great-circle bearing, normalised by adding 360 and
taking the remainder modulo 360, lies in the half-open interval
[0, 360). -/
theorem C5_bearing_range (lat1 lon1 lat2 lon2 : ℝ)
    (hne : ¬(lat1 = lat2 ∧ lon1 = lon2))
    (hanti : ¬AntipodalPts lat1 lon1 lat2 lon2) :
    0 ≤ calculateBearing lat1 lon1 lat2 lon2 ∧
    calculateBearing lat1 lon1 lat2 lon2 < 360 :=
  bearing_norm_range _ _

/-- Witness for C5 on the distinct, non-antipodal pair (0, 0) and
(10, 20). -/
theorem C5_bearing_range_witness :
    ¬((0:ℝ) = 10 ∧ (0:ℝ) = 20) ∧ ¬AntipodalPts 0 0 10 20 ∧
    (0 ≤ calculateBearing 0 0 10 20 ∧ calculateBearing 0 0 10 20 < 360) :=
  ⟨by norm_num, by norm_num [AntipodalPts],
    C5_bearing_range 0 0 10 20 (by norm_num) (by norm_num [AntipodalPts])⟩

theorem slerp_pole_fst : (slerpPoint 45 (-90) 45 90 (1/2)).1 = 90 := by
  have h2 : Real.sqrt 2 * Real.sqrt 2 = 2 := Real.mul_self_sqrt (by norm_num)
  have e1 : (45:ℝ) * π / 180 = π / 4 := by ring
  have e2 : ((90:ℝ) - -90) * π / 180 = π := by ring
  have e3 : (-90:ℝ) * π / 180 = -(π / 2) := by ring
  have e4 : (90:ℝ) * π / 180 = π / 2 := by ring
  simp only [slerpPoint, e1, e2, e3, e4]
  rw [Real.cos_pi, Real.sin_pi_div_four, Real.cos_pi_div_four, Real.cos_neg,
    Real.sin_neg, Real.cos_pi_div_two]
  have ea : (Real.sqrt 2 / 2 * (Real.sqrt 2 / 2) +
      Real.sqrt 2 / 2 * (Real.sqrt 2 / 2) * (-1) : ℝ) = 0 := by ring
  rw [ea]
  have eclamp : (min 1 (max (-1) (0:ℝ))) = 0 := by norm_num
  rw [eclamp, Real.arccos_zero]
  have e5 : ((1:ℝ) - 1/2) * (π / 2) = π / 4 := by ring
  have e6 : ((1:ℝ)/2) * (π / 2) = π / 4 := by ring
  rw [e5, e6, Real.sin_pi_div_four, Real.sin_pi_div_two]
  have ez : (Real.sqrt 2 / 2 / 1 * (Real.sqrt 2 / 2) +
      Real.sqrt 2 / 2 / 1 * (Real.sqrt 2 / 2) : ℝ) = 1 := by
    nlinarith [h2]
  have ex : (Real.sqrt 2 / 2 / 1 * (Real.sqrt 2 / 2) * 0 +
      Real.sqrt 2 / 2 / 1 * (Real.sqrt 2 / 2) * 0 : ℝ) = 0 := by ring
  have ey : (Real.sqrt 2 / 2 / 1 * (Real.sqrt 2 / 2) * (-1) +
      Real.sqrt 2 / 2 / 1 * (Real.sqrt 2 / 2) * 1 : ℝ) = 0 := by ring
  rw [ez, ex, ey]
  have es : Real.sqrt ((0:ℝ) * 0 + 0 * 0) = 0 := by norm_num
  rw [es]
  have eI : atan2 1 0 = π / 2 := by
    have hI : (⟨0, 1⟩ : ℂ) = Complex.I := by
      apply Complex.ext <;> simp
    rw [atan2, hI, Complex.arg_I]
  rw [eI]
  field_simp
  ring

/-- Claim C6: the route midpoint is the spherical interpolation of the two
endpoints at fraction one half; it is not the arithmetic mean of the
coordinates, as shown on the pole-crossing route from (45, -90) to
(45, 90), and an antipodal route fails with a GeoError instead of
returning a point. -/
theorem C6_midpoint_is_slerp :
    (∀ lat1 lon1 lat2 lon2 : ℝ, AntipodalPts lat1 lon1 lat2 lon2 →
      routeMidpoint lat1 lon1 lat2 lon2 = .error .antipodalRoute) ∧
    (∀ lat1 lon1 lat2 lon2 : ℝ, ¬AntipodalPts lat1 lon1 lat2 lon2 →
      routeMidpoint lat1 lon1 lat2 lon2 =
        .ok (slerpPoint lat1 lon1 lat2 lon2 (1 / 2))) ∧
    routeMidpoint 45 (-90) 45 90 ≠ .ok (arithmeticMidpoint 45 (-90) 45 90) := by
  refine ⟨fun lat1 lon1 lat2 lon2 h => ?_, fun lat1 lon1 lat2 lon2 h => ?_, ?_⟩
  · simp [routeMidpoint, great_circle_point, h]
  · simp [routeMidpoint, great_circle_point, h]
  · have hna : ¬AntipodalPts 45 (-90) 45 90 := by norm_num [AntipodalPts]
    simp only [routeMidpoint, great_circle_point, if_neg hna, ne_eq,
      Except.ok.injEq]
    intro heq
    have hfst := congrArg Prod.fst heq
    rw [slerp_pole_fst] at hfst
    simp only [arithmeticMidpoint] at hfst
    norm_num at hfst

/-- Witness for C6 on the antipodal pair (0, 0) and (0, 180). -/
theorem C6_midpoint_is_slerp_witness :
    AntipodalPts 0 0 0 180 ∧
    routeMidpoint 0 0 0 180 = .error .antipodalRoute :=
  ⟨by norm_num [AntipodalPts],
    C6_midpoint_is_slerp.1 0 0 0 180 (by norm_num [AntipodalPts])⟩

/-! Phase-time theorems. -/

/-- Claim C7: for every point and local date with a normal day/night
cycle, the four phase times are strictly ordered: civil dawn before
sunrise before sunset before civil dusk. -/
theorem C7_phase_ordering (alt : ℝ → ℝ) (t0 noon t1 : ℝ) (pt : PhaseTimes)
    (hcycle : NormalDayCycle alt t0 noon t1)
    (hpt : IsPhaseTimes alt t0 noon t1 pt) :
    pt.civil_dawn < pt.sunrise ∧ pt.sunrise < pt.sunset ∧
    pt.sunset < pt.civil_dusk := by
  obtain ⟨h01, h12, hmono, hanti, hnoon⟩ := hcycle
  obtain ⟨hdw, hdwv, hsr, hsrv, hss, hssv, hdk, hdkv⟩ := hpt
  have hnoonm : noon ∈ Set.Icc t0 noon := ⟨h01, le_refl noon⟩
  have hnoonm2 : noon ∈ Set.Icc noon t1 := ⟨le_refl noon, h12⟩
  refine ⟨?_, ?_, ?_⟩
  · have hlt : alt pt.civil_dawn < alt pt.sunrise := by
      rw [hdwv, hsrv]
      norm_num
    exact (hmono.lt_iff_lt hdw hsr).mp hlt
  · have h1 : pt.sunrise < noon := by
      have hlt : alt pt.sunrise < alt noon := by
        rw [hsrv]
        exact hnoon
      exact (hmono.lt_iff_lt hsr hnoonm).mp hlt
    have h2 : noon < pt.sunset := by
      have hlt : alt pt.sunset < alt noon := by
        rw [hssv]
        exact hnoon
      exact (hanti.lt_iff_lt hss hnoonm2).mp hlt
    linarith
  · have hlt : alt pt.civil_dusk < alt pt.sunset := by
      rw [hdkv, hssv]
      norm_num
    exact (hanti.lt_iff_lt hdk hss).mp hlt

theorem dayAlt_cycle : NormalDayCycle dayAlt (-8) 0 8 := by
  refine ⟨by norm_num, by norm_num, ?_, ?_, by norm_num [dayAlt]⟩
  · intro a ha b hb hab
    simp only [dayAlt]
    rw [abs_of_nonpos ha.2, abs_of_nonpos hb.2]
    linarith
  · intro a ha b hb hab
    simp only [dayAlt]
    rw [abs_of_nonneg ha.1, abs_of_nonneg hb.1]
    linarith

theorem dayAlt_phases : IsPhaseTimes dayAlt (-8) 0 8 ⟨-7, -1, 1, 7⟩ := by
  refine ⟨?_, ?_, ?_, ?_, ?_, ?_, ?_, ?_⟩ <;>
    simp [dayAlt, Set.mem_Icc, abs_of_nonpos, abs_of_nonneg] <;> norm_num

/-- Witness for C7 on the tent altitude profile. -/
theorem C7_phase_ordering_witness :
    (NormalDayCycle dayAlt (-8) 0 8 ∧
      IsPhaseTimes dayAlt (-8) 0 8 ⟨-7, -1, 1, 7⟩) ∧
    ((PhaseTimes.mk (-7) (-1) 1 7).civil_dawn <
        (PhaseTimes.mk (-7) (-1) 1 7).sunrise ∧
      (PhaseTimes.mk (-7) (-1) 1 7).sunrise <
        (PhaseTimes.mk (-7) (-1) 1 7).sunset ∧
      (PhaseTimes.mk (-7) (-1) 1 7).sunset <
        (PhaseTimes.mk (-7) (-1) 1 7).civil_dusk) :=
  ⟨⟨dayAlt_cycle, dayAlt_phases⟩,
    C7_phase_ordering dayAlt (-8) 0 8 _ dayAlt_cycle dayAlt_phases⟩

/-! Stability theorems. -/

/-- Claim C8: across the sampled ±3 hour window, an unchanged side gives
HIGH stability; a changed side rules out HIGH, and then stability is
MEDIUM exactly when the confidence stays non-LOW at every sample. -/
theorem C8_stability (f : ℤ → DecisionSample) :
    ((∀ t ∈ windowOffsets, ∀ u ∈ windowOffsets, (f t).side = (f u).side) →
      stabilityOf f = Stability.HIGH) ∧
    ((∃ t ∈ windowOffsets, ∃ u ∈ windowOffsets, (f t).side ≠ (f u).side) →
      stabilityOf f ≠ Stability.HIGH ∧
      (stabilityOf f = Stability.MEDIUM ↔
        ∀ t ∈ windowOffsets, (f t).confidence ≠ Confidence.LOW)) := by
  have h0 : (0:ℤ) ∈ windowOffsets := by decide
  constructor
  · intro h
    rw [stabilityOf, if_pos (fun t ht => h t ht 0 h0)]
  · rintro ⟨t, ht, u, hu, hne⟩
    have hcond : ¬∀ s ∈ windowOffsets, (f s).side = (f 0).side := by
      intro hall
      exact hne ((hall t ht).trans (hall u hu).symm)
    refine ⟨?_, ?_, ?_⟩
    · rw [stabilityOf, if_neg hcond]
      split_ifs with h2
      · exact fun h => Stability.noConfusion h
      · exact fun h => Stability.noConfusion h
    · intro hmed
      by_contra hnot
      rw [stabilityOf, if_neg hcond, if_neg hnot] at hmed
      exact Stability.noConfusion hmed
    · intro hall
      rw [stabilityOf, if_neg hcond, if_pos hall]

/-- Witness for C8 on the constant decision function. -/
theorem C8_stability_witness :
    (∀ t ∈ windowOffsets, ∀ u ∈ windowOffsets,
      ((fun _ => ⟨Side.LEFT, Confidence.HIGH⟩ : ℤ → DecisionSample) t).side =
        ((fun _ => ⟨Side.LEFT, Confidence.HIGH⟩ : ℤ → DecisionSample) u).side) ∧
    stabilityOf (fun _ => ⟨Side.LEFT, Confidence.HIGH⟩) = Stability.HIGH :=
  ⟨fun _ _ _ _ => rfl,
    (C8_stability (fun _ => ⟨Side.LEFT, Confidence.HIGH⟩)).1 fun _ _ _ _ => rfl⟩

/-! Orchestrator theorems. -/

/-- Claim C9: when origin and destination coincide on valid coordinates,
the engine returns a typed GEO_ERROR from the closed four-element error
taxonomy, and no Recommendation object is returned for that request. -/
theorem C9_geo_error
    (engine : FlightRequest → Except ErrorPayload Recommendation)
    (req : FlightRequest)
    (hv1 : validPoint req.origin) (hv2 : validPoint req.destination)
    (heq : samePoint req.origin req.destination) :
    recommend engine req = .error ⟨.GEO_ERROR, "origin equals destination"⟩ ∧
    (∀ r : Recommendation, recommend engine req ≠ .ok r) ∧
    (∀ e : ErrorType, e = .GEO_ERROR ∨ e = .POLAR_DAY ∨
      e = .UNDEFINED_SUN ∨ e = .VALIDATION) := by
  have h1 : ¬¬(validPoint req.origin ∧ validPoint req.destination) :=
    not_not_intro ⟨hv1, hv2⟩
  refine ⟨?_, ?_, ?_⟩
  · rw [recommend, if_neg h1, if_pos heq]
  · intro r
    rw [recommend, if_neg h1, if_pos heq]
    exact fun h => Except.noConfusion h
  · intro e
    cases e <;> simp

/-- Witness for C9 on the degenerate Kolkata request. -/
theorem C9_geo_error_witness :
    (validPoint degenerateReq.origin ∧ validPoint degenerateReq.destination ∧
      samePoint degenerateReq.origin degenerateReq.destination) ∧
    recommend trivialEngine degenerateReq =
      .error ⟨.GEO_ERROR, "origin equals destination"⟩ :=
  ⟨⟨by norm_num [validPoint, degenerateReq],
      by norm_num [validPoint, degenerateReq], by exact ⟨rfl, rfl⟩⟩,
    (C9_geo_error trivialEngine degenerateReq
      (by norm_num [validPoint, degenerateReq])
      (by norm_num [validPoint, degenerateReq]) (by exact ⟨rfl, rfl⟩)).1⟩

/-! Seat colouring theorems. -/

/-- Claim C10: in the seat-layout colouring, only window seats on the
recommended side are highlighted: LEFT colours exactly the A column and
RIGHT exactly the H column, gold for a sunrise interest and orange for
sunset; EITHER or a missing recommendation leaves every seat white, and
no seat is highlighted on both sides. -/
theorem C10_seat_highlight (recSide : Option Side) (it : Option Interest) :
    ∀ s ∈ colorSeats recSide it allSeats,
      (s.color ≠ "#FFFFFF" →
        s.isWindow = true ∧
        ((recSide = some Side.LEFT ∧ endsWithChar s.seat 'A' = true) ∨
          (recSide = some Side.RIGHT ∧ endsWithChar s.seat 'H' = true)) ∧
        s.color = (if it = some Interest.sunrise
          then "#FFD700" else "#FFA500")) ∧
      (recSide = some Side.LEFT →
        (s.color ≠ "#FFFFFF" ↔ endsWithChar s.seat 'A' = true)) ∧
      (recSide = some Side.RIGHT →
        (s.color ≠ "#FFFFFF" ↔ endsWithChar s.seat 'H' = true)) ∧
      ((recSide = none ∨ recSide = some Side.EITHER) →
        s.color = "#FFFFFF") := by
  rcases recSide with _ | sd <;> rcases it with _ | iv
  · decide
  · cases iv <;> decide
  · cases sd <;> decide
  · cases sd <;> cases iv <;> decide

/-- Witness for C10: the coloured 1A seat under a LEFT sunrise
recommendation. -/
theorem C10_seat_highlight_witness :
    ((⟨1, "1A", "#FFD700", true, false, "port-window"⟩ : SeatPosition) ∈
      colorSeats (some Side.LEFT) (some Interest.sunrise) allSeats) ∧
    ((⟨1, "1A", "#FFD700", true, false, "port-window"⟩ : SeatPosition).color ≠
        "#FFFFFF" ↔
      endsWithChar
        (⟨1, "1A", "#FFD700", true, false, "port-window"⟩ : SeatPosition).seat
        'A' = true) :=
  ⟨by decide,
    ((C10_seat_highlight (some Side.LEFT) (some Interest.sunrise) _
      (by decide)).2.1 rfl)⟩

end ScenicSeat
